import Mathlib

/-!
Shallow embedding of the `instruqt` Go client library (isovalent/instruqt-go)
for checking its natural-language specification.

The GraphQL executor, the svix signature-verification primitive and the
JSON decoder are external collaborators of the code under verification; they
are modelled as explicit oracle arguments (each call's response is an input
of the embedded method).  Every embedded method additionally returns the
list of GraphQL calls it issued, together with the variables it forwarded,
so that "no network call is made" and "filter X is forwarded verbatim"
are directly statable.

Go conventions carried over by the embedding:
  - a Go `error` result is `Option Err` (`none` = nil error);
  - a fallible external call is `Except Err α`;
  - a nil-able pointer is `Option _`;
  - named return values start at the struct zero value, written `{}` here
    (every structure field carries its Go zero value as default);
  - `time.Time` and `float32` payloads are opaque to every claim checked
    here; they are carried as `Nat` / `Int` tokens that the embedded code
    never computes on.
-/

/-- Go `error` values are carried as their message strings. -/
abbrev Err := String

/-- Opaque stand-in for `time.Time` (never computed on). -/
abbrev GoTime := Nat

/-- A GraphQL variable value, as placed into the `variables` map that a
method hands to the executor.  The distinction between a scalar string and
a list of strings is observable (it is what claim C6 is about). -/
inductive GVal where
  | s : String → GVal
  | sl : List String → GVal
  | i : Int → GVal
  | idv : String → GVal
  | time : GoTime → GVal
  deriving Repr, DecidableEq

/-- One call handed to the GraphQL executor: whether it was a mutation,
and the `variables` map (in the literal order of the Go source). -/
structure GqlCall where
  isMutation : Bool
  vars : List (String × GVal)
  deriving Repr, DecidableEq

/-- Builds a `Query` executor call. -/
def queryCall (vars : List (String × GVal)) : GqlCall := ⟨false, vars⟩

/-- Builds a `Mutate` executor call. -/
def mutateCall (vars : List (String × GVal)) : GqlCall := ⟨true, vars⟩

/-- Result of an embedded client method: the Go return value, the Go error,
and the trace of executor calls the method issued. -/
structure Res (α : Type) where
  val : α
  err : Option Err := none
  calls : List GqlCall := []
  deriving Repr, DecidableEq

/-! ## Domain structures (translated from the Go struct definitions) -/

/-- `Challenge` (challenge.go).  The nested anonymous `Track struct { Id string }`
is flattened to `TrackId`; an attempt record keeps its message and timestamp. -/
structure Challenge where
  Id : String := ""
  Slug : String := ""
  Title : String := ""
  Teaser : String := ""
  Index : Int := 0
  Status : String := ""
  TrackId : String := ""
  Attempts : List (String × GoTime) := []
  Assignment : String := ""
  deriving Repr, DecidableEq

/-- `Play` (play.go, hasura revision): domain model of a user's journey. -/
structure Play where
  Id : String := ""
  StartedAt : GoTime := 0
  deriving Repr, DecidableEq

/-- `baseReview` (review.go): the fundamental fields of a review. -/
structure BaseReview where
  Id : String := ""
  Score : Int := 0
  Content : String := ""
  Created_At : GoTime := 0
  Updated_At : GoTime := 0
  deriving Repr, DecidableEq

/-- `Review` (review.go): `baseReview` plus the optional `*Play` back-reference.
Go struct embedding is rendered with `extends`. -/
structure Review extends BaseReview where
  Play : Option Play := none
  deriving Repr, DecidableEq

/-- The anonymous `TrackReviews struct { TotalCount int; Nodes []Review }`. -/
structure TrackReviewsConn where
  TotalCount : Int := 0
  Nodes : List Review := []
  deriving Repr, DecidableEq

/-- `Track` (track.go, hasura revision).  `Statistics.Average_review_score`
(a `float32`) is an opaque token; `TrackTags` keeps tag values. -/
structure Track where
  Slug : String := ""
  Id : String := ""
  Icon : String := ""
  Title : String := ""
  Description : String := ""
  Teaser : String := ""
  Level : String := ""
  Embed_Token : String := ""
  CreatedAt : GoTime := 0
  DeletedAt : GoTime := 0
  Last_Update : GoTime := 0
  AverageReviewScore : Int := 0
  TrackTags : List String := []
  TrackReviews : TrackReviewsConn := {}
  Challenges : List Challenge := []
  deriving Repr, DecidableEq

/-- `SandboxTrack` (track.go, hasura revision).  The nested
`Participant struct { Id string }` is flattened; `SandboxConfig` is a
nil-able pointer carried as the config-version id. -/
structure SandboxTrack where
  Id : String := ""
  Slug : String := ""
  Icon : String := ""
  Title : String := ""
  Description : String := ""
  Teaser : String := ""
  Level : String := ""
  Embed_Token : String := ""
  CreatedAt : GoTime := 0
  DeletedAt : GoTime := 0
  Last_Update : GoTime := 0
  AverageReviewScore : Int := 0
  TrackTags : List String := []
  TrackReviews : TrackReviewsConn := {}
  Challenges : List Challenge := []
  Status : String := ""
  Started : GoTime := 0
  Completed : GoTime := 0
  ParticipantId : String := ""
  SandboxConfig : Option String := none
  deriving Repr, DecidableEq

/-- `TrackInviteClaim` (invite.go); the nested `User struct { Id string }`
is flattened to `UserId`. -/
structure TrackInviteClaim where
  Id : String := ""
  UserId : String := ""
  ClaimedAt : GoTime := 0
  deriving Repr, DecidableEq

/-- `TrackInvite` (invite.go); `RuntimeParameters.EnvironmentVariables`
keeps its key/value pairs. -/
structure TrackInvite where
  Id : String := ""
  PublicTitle : String := ""
  EnvironmentVariables : List (String × String) := []
  Claims : List TrackInviteClaim := []
  deriving Repr, DecidableEq

/-- `UserDetails` (user.go): team-scoped detail source (the fields the
claims touch; the remaining company/job/consent fields are not read by
any embedded method). -/
structure UserDetails where
  FirstName : String := ""
  LastName : String := ""
  Email : String := ""
  deriving Repr, DecidableEq

/-- `UserProfile` (user.go): platform profile source. -/
structure UserProfile where
  Display_Name : String := ""
  Email : String := ""
  deriving Repr, DecidableEq

/-- `User` (src/instruqt/user.go revision: embedded value structs). -/
structure User where
  Details : UserDetails := {}
  Profile : UserProfile := {}
  deriving Repr, DecidableEq

/-- `UserInfo` (user.go): the simplified structure `GetUserInfo` returns. -/
structure UserInfo where
  FirstName : String := ""
  LastName : String := ""
  Email : String := ""
  deriving Repr, DecidableEq

/-- Outcome of a Go computation that can panic (used for `GetUserInfo`,
whose `nameParts[0]` indexes a possibly-empty slice). -/
inductive GoOutcome (α : Type) where
  | ok : α → GoOutcome α
  | panicked : GoOutcome α
  deriving Repr, DecidableEq

/-! ## Options / configuration builder (options.go) -/

/-- `Ordering` (options.go / play.go): sorting parameters for plays.
(Named `PlayOrdering` here because `Ordering` is taken by the Lean core.) -/
structure PlayOrdering where
  OrderBy : String := ""
  Direction : String := ""
  deriving Repr, DecidableEq

/-- `options` (options.go): the single mutable option accumulator shared by
the option-based methods.  `PlayType` is a string enumeration whose Go zero
value is the empty string.  `ordering` is a nil-able pointer. -/
structure Options where
  includePlay : Bool := false
  includeChallenges : Bool := false
  includeReviews : Bool := false
  includeAssignment : Bool := false
  trackIDs : List String := []
  trackInviteIDs : List String := []
  landingPageIDs : List String := []
  tags : List String := []
  userIDs : List String := []
  playType : String := ""
  ordering : Option PlayOrdering := none
  state : String := ""
  poolIDs : List String := []
  deriving Repr, DecidableEq

/-- `Option` (options.go): a functional option mutating the accumulator. -/
abbrev OptionFn := Options → Options

/-- Applies a variadic option list to an initial accumulator, in order
(the Go `for _, opt := range opts { opt(options) }` loop). -/
def applyOptions (opts : List OptionFn) (init : Options) : Options :=
  opts.foldl (fun acc f => f acc) init

/-- `WithPlay` (options.go). -/
def WithPlay : OptionFn := fun o => { o with includePlay := true }

/-- `WithChallenges` (options.go). -/
def WithChallenges : OptionFn := fun o => { o with includeChallenges := true }

/-- `WithReviews` (options.go). -/
def WithReviews : OptionFn := fun o => { o with includeReviews := true }

/-- `WithTrackIDs` (options.go). -/
def WithTrackIDs (ids : List String) : OptionFn := fun o => { o with trackIDs := ids }

/-- `WithTrackInviteIDs` (options.go). -/
def WithTrackInviteIDs (ids : List String) : OptionFn := fun o => { o with trackInviteIDs := ids }

/-- `WithTags` (options.go). -/
def WithTags (tags : List String) : OptionFn := fun o => { o with tags := tags }

/-- `WithUserIDs` (options.go). -/
def WithUserIDs (ids : List String) : OptionFn := fun o => { o with userIDs := ids }

/-- `WithPlayType` (options.go). -/
def WithPlayType (pt : String) : OptionFn := fun o => { o with playType := pt }

/-- `WithState` (options.go). -/
def WithState (st : String) : OptionFn := fun o => { o with state := st }

/-- `WithPoolIDs` (options.go). -/
def WithPoolIDs (ids : List String) : OptionFn := fun o => { o with poolIDs := ids }

/-- `WithAssignment` (options.go). -/
def WithAssignment : OptionFn := fun o => { o with includeAssignment := true }

/-- `WithOrdering` (options.go). -/
def WithOrdering (orderBy direction : String) : OptionFn :=
  fun o => { o with ordering := some ⟨orderBy, direction⟩ }

/-! ## Challenge methods (challenge.go) -/

/-- `GetChallenge` (challenge.go): empty-id guard, then one query.
`resp` is the executor's answer for the `challengeQuery`. -/
def GetChallenge (id : String) (resp : Except Err Challenge) : Res Challenge :=
  if id = "" then { val := {} }
  else
    let call := queryCall [("challengeId", GVal.s id)]
    match resp with
    | .error e => { val := {}, err := some e, calls := [call] }
    | .ok ch => { val := ch, calls := [call] }

/-- `GetUserChallenge` (challenge.go): empty-challenge-id guard, then one
query with user and challenge ids. -/
def GetUserChallenge (userId id : String) (resp : Except Err Challenge) : Res Challenge :=
  if id = "" then { val := {} }
  else
    let call := queryCall [("challengeId", GVal.s id), ("userId", GVal.s userId)]
    match resp with
    | .error e => { val := {}, err := some e, calls := [call] }
    | .ok ch => { val := ch, calls := [call] }

/-! ## Invite methods (invite.go) -/

/-- `GetInvite` (invite.go): empty-id guard, then one query. -/
def GetInvite (inviteId : String) (resp : Except Err TrackInvite) : Res TrackInvite :=
  if inviteId = "" then { val := {} }
  else
    let call := queryCall [("inviteId", GVal.s inviteId)]
    match resp with
    | .error e => { val := {}, err := some e, calls := [call] }
    | .ok i => { val := i, calls := [call] }

/-! ## Review methods (review.go) -/

/-- `reviewOptions` (review.go): configuration for `GetReview`. -/
structure ReviewOptions where
  includePlay : Bool := false
  deriving Repr, DecidableEq

/-- `GetReviewOption` (review.go). -/
abbrev GetReviewOption := ReviewOptions → ReviewOptions

/-- `WithPlay` for `GetReview` (review.go). -/
def ReviewWithPlay : GetReviewOption := fun o => { o with includePlay := true }

/-- `GetReview` (review.go).  NOTE: the source has no empty-id guard: the
query is issued for every id, including `""`.  Depending on `includePlay`
the decode target is the full `Review` (with `play`) or the `baseReview`;
`respPlay` / `respBase` are the executor's answers for the two shapes.
The `*Review` return is `Option Review` (`none` = nil pointer). -/
def GetReview (id : String) (opts : List GetReviewOption)
    (respPlay : Except Err Review) (respBase : Except Err BaseReview) :
    Res (Option Review) :=
  let options := opts.foldl (fun acc f => f acc) ({} : ReviewOptions)
  let call := queryCall [("id", GVal.idv id)]
  if options.includePlay then
    match respPlay with
    | .error e => { val := none, err := some ("GraphQL query with play failed: " ++ e), calls := [call] }
    | .ok r => { val := some r, calls := [call] }
  else
    match respBase with
    | .error e => { val := none, err := some ("GraphQL query failed: " ++ e), calls := [call] }
    | .ok r => { val := some { toBaseReview := r, Play := none }, calls := [call] }

/-- `GetReviews` (track.go, hasura revision): fetches all reviews of a
track; with `includePlay` the nodes decode as full `Review`s, otherwise as
`baseReview`s that are then wrapped with `Play = nil`. -/
def GetReviews (trackId : String) (opts : List OptionFn)
    (respPlay : Except Err (Int × List Review))
    (respBase : Except Err (Int × List BaseReview)) :
    Res (Int × List Review) :=
  let options := applyOptions opts {}
  let call := queryCall [("trackId", GVal.s trackId)]
  if options.includePlay then
    match respPlay with
    | .error e => { val := (0, []), err := some ("GraphQL query with play failed: " ++ e), calls := [call] }
    | .ok (cnt, rs) => { val := (cnt, rs), calls := [call] }
  else
    match respBase with
    | .error e => { val := (0, []), err := some ("GraphQL query failed: " ++ e), calls := [call] }
    | .ok (cnt, rs) =>
        { val := (cnt, rs.map fun r => { toBaseReview := r, Play := none }), calls := [call] }

/-! ## Track methods (track.go, hasura revision = src/unnamed/part_005;
the shurcooL revision at src/instruqt/track.go has the same empty-id
guards and the same unlocked-challenge scan, without the options layer). -/

/-- `GetChallenges` (track.go): empty-track-id guard, then one query. -/
def GetChallenges (teamSlug trackId : String) (resp : Except Err (List Challenge)) :
    Res (List Challenge) :=
  if trackId = "" then { val := [] }
  else
    let call := queryCall [("trackId", GVal.s trackId), ("teamSlug", GVal.s teamSlug)]
    match resp with
    | .error e => { val := [], err := some e, calls := [call] }
    | .ok chs => { val := chs, calls := [call] }

/-- The `includeChallenges` enrichment step of `GetTrackById`: replaces the
track's challenge list, or aborts with the wrapped fetch error. -/
def enrichChallenges (tr : Track) (challengesResp : Except Err (List Challenge)) :
    Except Err Track :=
  match challengesResp with
  | .error e => .error ("failed to fetch challenges for track: " ++ e)
  | .ok chs => .ok { tr with Challenges := chs }

/-- The `includeReviews` enrichment step of `GetTrackById` /
`GetUserTrackById`: installs count and nodes, or aborts with the wrapped
fetch error.  `reviewsResp` stands for the `(count, reviews, err)` result
of the `c.GetReviews(trackId, opts...)` sub-call. -/
def enrichReviewsT (tr : Track) (reviewsResp : Except Err (Int × List Review)) :
    Except Err Track :=
  match reviewsResp with
  | .error e => .error ("failed to fetch reviews for track: " ++ e)
  | .ok (cnt, rs) => .ok { tr with TrackReviews := ⟨cnt, rs⟩ }

/-- `GetTrackById` (track.go, hasura revision): empty-id guard, primary
query, then the optional challenge and review enrichment steps; any
enrichment failure returns the zero-value named return `t` together with
the wrapped error. -/
def GetTrackById (trackId : String) (opts : List OptionFn)
    (primary : Except Err Track)
    (challengesResp : Except Err (List Challenge))
    (reviewsResp : Except Err (Int × List Review)) : Res Track :=
  if trackId = "" then { val := {} }
  else
    let options := applyOptions opts {}
    let call := queryCall [("trackId", GVal.s trackId)]
    match primary with
    | .error e => { val := {}, err := some e, calls := [call] }
    | .ok tr0 =>
      let step1 : Except Err Track :=
        if options.includeChallenges then enrichChallenges tr0 challengesResp else .ok tr0
      match step1 with
      | .error e => { val := {}, err := some e, calls := [call] }
      | .ok tr1 =>
        let step2 : Except Err Track :=
          if options.includeReviews then enrichReviewsT tr1 reviewsResp else .ok tr1
        match step2 with
        | .error e => { val := {}, err := some e, calls := [call] }
        | .ok tr2 => { val := tr2, calls := [call] }

/-- The per-challenge user-status loop of `GetUserTrackById`:
`for i, ch := range challenges { if cch, err := c.GetUserChallenge(userId, ch.Id); err == nil
{ challenges[i] = cch } else { return t, err } }`.
Each entry is replaced by the per-user fetch of its id, the first failing
fetch aborts with its (unwrapped) error.  `userChResp` is the executor's
answer for each per-challenge `userChallengeQuery`. -/
def userStatusLoop (userId : String) (userChResp : String → Except Err Challenge) :
    List Challenge → Except Err (List Challenge)
  | [] => .ok []
  | ch :: rest =>
    let r := GetUserChallenge userId ch.Id (userChResp ch.Id)
    match r.err with
    | some e => .error e
    | none =>
      match userStatusLoop userId userChResp rest with
      | .error e => .error e
      | .ok rest2 => .ok (r.val :: rest2)

/-- The `includeReviews` step for `SandboxTrack` values. -/
def enrichReviewsST (tr : SandboxTrack) (reviewsResp : Except Err (Int × List Review)) :
    Except Err SandboxTrack :=
  match reviewsResp with
  | .error e => .error ("failed to fetch reviews for track: " ++ e)
  | .ok (cnt, rs) => .ok { tr with TrackReviews := ⟨cnt, rs⟩ }

/-- `GetUserTrackById` (track.go, hasura revision): empty-track-id guard,
primary query, then optionally the challenge fetch followed by the
per-challenge user-status loop, then optionally the review fetch; any
failing sub-call returns the zero-value named return `t` and an error. -/
def GetUserTrackById (userId trackId teamSlug : String) (opts : List OptionFn)
    (primary : Except Err SandboxTrack)
    (challengesResp : Except Err (List Challenge))
    (userChResp : String → Except Err Challenge)
    (reviewsResp : Except Err (Int × List Review)) : Res SandboxTrack :=
  if trackId = "" then { val := {} }
  else
    let options := applyOptions opts {}
    let call := queryCall
      [("trackId", GVal.s trackId), ("userId", GVal.s userId),
       ("organizationSlug", GVal.s teamSlug)]
    match primary with
    | .error e => { val := {}, err := some e, calls := [call] }
    | .ok tr0 =>
      let step1 : Except Err SandboxTrack :=
        if options.includeChallenges then
          match challengesResp with
          | .error e => .error ("failed to fetch challenges for track: " ++ e)
          | .ok chs =>
            match userStatusLoop userId userChResp chs with
            | .error e => .error e
            | .ok chs2 => .ok { tr0 with Challenges := chs2 }
        else .ok tr0
      match step1 with
      | .error e => { val := {}, err := some e, calls := [call] }
      | .ok tr1 =>
        let step2 : Except Err SandboxTrack :=
          if options.includeReviews then enrichReviewsST tr1 reviewsResp else .ok tr1
        match step2 with
        | .error e => { val := {}, err := some e, calls := [call] }
        | .ok tr2 => { val := tr2, calls := [call] }

/-- The status allowlist of the `switch` in `GetTrackUnlockedChallenge`:
`case "unlocked", "creating", "created", "started"`. -/
def unlockedStatuses : List String := ["unlocked", "creating", "created", "started"]

/-- The scan loop of `GetTrackUnlockedChallenge`: first challenge whose
status is in the allowlist, else the zero-value named return. -/
def firstPlayable : List Challenge → Challenge
  | [] => {}
  | ch :: rest =>
    if unlockedStatuses.contains ch.Status then ch else firstPlayable rest

/-- `GetTrackUnlockedChallenge` (track.go, hasura revision): fetches the
user track with `WithChallenges()`, wraps a fetch error, otherwise scans
the challenge list. -/
def GetTrackUnlockedChallenge (userId trackId teamSlug : String)
    (primary : Except Err SandboxTrack)
    (challengesResp : Except Err (List Challenge))
    (userChResp : String → Except Err Challenge)
    (reviewsResp : Except Err (Int × List Review)) : Res Challenge :=
  let tr := GetUserTrackById userId trackId teamSlug [WithChallenges]
    primary challengesResp userChResp reviewsResp
  match tr.err with
  | some e =>
    { val := {},
      err := some ("[instruqt.GetTrackUnlockedChallenge] failed to get user track: " ++ e),
      calls := tr.calls }
  | none => { val := firstPlayable tr.val.Challenges, calls := tr.calls }

/-- The `includeChallenges` loop of `GetTracks`:
`for _, t := range q.Tracks { challenges, err := c.GetChallenges(t.Id); if err != nil
{ return tt, ... }; t.Challenges = challenges }`.
The range variable `t` is a copy of the slice element, so the assignment
`t.Challenges = challenges` mutates only the discarded copy: the loop can
only surface an error, never change the returned tracks.  `chOf` is the
`GetChallenges` sub-call result per track id. -/
def getTracksChallengesLoop (chOf : String → Except Err (List Challenge)) :
    List Track → Option Err
  | [] => none
  | t :: rest =>
    match chOf t.Id with
    | .error e => some ("failed to fetch challenges for track: " ++ e)
    | .ok _ => getTracksChallengesLoop chOf rest

/-- The `includeReviews` loop of `GetTracks`; same range-copy behaviour:
only the first error is observable.  `rvOf` is the `GetReviews` sub-call
result per track id. -/
def getTracksReviewsLoop (rvOf : String → Except Err (Int × List Review)) :
    List Track → Option Err
  | [] => none
  | t :: rest =>
    match rvOf t.Id with
    | .error e => some ("failed to fetch reviews for track: " ++ e)
    | .ok _ => getTracksReviewsLoop rvOf rest

/-- `GetTracks` (track.go, hasura revision): primary query for all tracks
of the team, then the two optional enrichment loops over the result. -/
def GetTracks (teamSlug : String) (opts : List OptionFn)
    (primary : Except Err (List Track))
    (chOf : String → Except Err (List Challenge))
    (rvOf : String → Except Err (Int × List Review)) : Res (List Track) :=
  let options := applyOptions opts {}
  let call := queryCall [("organizationSlug", GVal.s teamSlug)]
  match primary with
  | .error e => { val := [], err := some e, calls := [call] }
  | .ok tracks =>
    match (if options.includeChallenges then getTracksChallengesLoop chOf tracks else none) with
    | some e => { val := [], err := some e, calls := [call] }
    | none =>
      match (if options.includeReviews then getTracksReviewsLoop rvOf tracks else none) with
      | some e => { val := [], err := some e, calls := [call] }
      | none => { val := tracks, calls := [call] }

/-! ## User methods (src/instruqt/user.go) -/

/-- Accumulator pass of `goFields`: `cur` holds the reversed characters of
the token being read; whitespace closes the token, everything else
extends it. -/
def goFieldsAux (cur : List Char) : List Char → List String
  | [] => if cur.isEmpty then [] else [String.mk cur.reverse]
  | c :: cs =>
    if c.isWhitespace then
      if cur.isEmpty then goFieldsAux [] cs
      else String.mk cur.reverse :: goFieldsAux [] cs
    else goFieldsAux (c :: cur) cs

/-- Go `strings.Fields`: the maximal runs of non-whitespace characters of
a string (split around runs of whitespace; no empty tokens). -/
def goFields (s : String) : List String :=
  goFieldsAux [] s.data

/-- `GetUserInfo` (user.go): query error is wrapped; a non-empty
`Details.Email` wins and copies the Details fields; otherwise a non-empty
`Profile.Email` splits the display name with `strings.Fields`, takes
`nameParts[0]` as first name (a panic when there is no token) and joins
the rest with single spaces; otherwise the zero value with nil error. -/
def GetUserInfo (resp : Except Err User) : GoOutcome (UserInfo × Option Err) :=
  match resp with
  | .error e => .ok ({}, some ("[GetUserInfo] Failed to retrieve user info: " ++ e))
  | .ok user =>
    if user.Details.Email ≠ "" then
      .ok (⟨user.Details.FirstName, user.Details.LastName, user.Details.Email⟩, none)
    else if user.Profile.Email ≠ "" then
      match goFields user.Profile.Display_Name with
      | [] => .panicked
      | p :: rest =>
        .ok (⟨p, String.intercalate " " rest, user.Profile.Email⟩, none)
    else
      .ok ({}, none)

/-! ## Client (src/instruqt/client.go) -/

/-- `Client` (client.go).  The executor, logger and context types are
opaque parameters; the two `*log.Logger` fields are nil-able pointers. -/
structure Client (G L C : Type) where
  GraphQLClient : G
  InfoLogger : Option L := none
  DebugLogger : Option L := none
  TeamSlug : String := ""
  Context : C
  deriving Repr, DecidableEq

/-- `WithContext` (client.go): builds a new `Client` literal listing
`GraphQLClient`, `InfoLogger`, `TeamSlug` and the new `Context`;
`DebugLogger` is absent from the literal, so it gets the Go zero value
(nil). The receiver is not written to. -/
def Client.WithContext {G L C : Type} (c : Client G L C) (ctx : C) : Client G L C :=
  { GraphQLClient := c.GraphQLClient
    InfoLogger := c.InfoLogger
    TeamSlug := c.TeamSlug
    Context := ctx }

/-! ## Plays (src/instruqt/play.go: `GetPlaysOption` revision) -/

/-- `PlayReportFilter` (play.go): the optional filters of `GetPlays`. -/
structure PlayReportFilter where
  TrackIDs : List String := []
  TrackInviteIDs : List String := []
  LandingPageIDs : List String := []
  Tags : List String := []
  UserIDs : List String := []
  PlayType : String := ""
  Ordering : Option PlayOrdering := none
  deriving Repr, DecidableEq

/-- `GetPlaysOption` (play.go). -/
abbrev GetPlaysOption := PlayReportFilter → PlayReportFilter

/-- `WithTrackIDs` (play.go). -/
def Plays.WithTrackIDs (ids : List String) : GetPlaysOption :=
  fun f => { f with TrackIDs := ids }

/-- `WithTrackInviteIDs` (play.go). -/
def Plays.WithTrackInviteIDs (ids : List String) : GetPlaysOption :=
  fun f => { f with TrackInviteIDs := ids }

/-- `WithTags` (play.go). -/
def Plays.WithTags (tags : List String) : GetPlaysOption :=
  fun f => { f with Tags := tags }

/-- `WithUserIDs` (play.go). -/
def Plays.WithUserIDs (ids : List String) : GetPlaysOption :=
  fun f => { f with UserIDs := ids }

/-- `WithPlayType` (play.go). -/
def Plays.WithPlayType (pt : String) : GetPlaysOption :=
  fun f => { f with PlayType := pt }

/-- `WithOrdering` (play.go). -/
def Plays.WithOrdering (orderBy direction : String) : GetPlaysOption :=
  fun f => { f with Ordering := some ⟨orderBy, direction⟩ }

/-- `PlayReport` (play.go): the fields of a play report that any claim can
observe; the nested activity/review/parameter records are never read by an
embedded method and are carried as opaque token lists. -/
structure PlayReport where
  Id : String := ""
  CompletionPercent : Int := 0
  TotalChallenges : Int := 0
  CompletedChallenges : Int := 0
  TimeSpent : Int := 0
  StoppedReason : String := ""
  Mode : String := ""
  StartedAt : GoTime := 0
  deriving Repr, DecidableEq

/-- The default filter literal of `GetPlays` (play.go lines 180-191):
all five id/tag filters empty, `PlayTypeAll`, completion-percent
descending ordering. -/
def defaultPlayFilter : PlayReportFilter :=
  { TrackIDs := [], TrackInviteIDs := [], LandingPageIDs := [],
    Tags := [], UserIDs := [], PlayType := "ALL",
    Ordering := some ⟨"completion_percent", "Desc"⟩ }

/-- `GetPlays` (play.go): applies the options to the default filter and
issues one query whose variables carry every filter verbatim (each list
filter as a GraphQL list).  The source dereferences `filters.Ordering`
unconditionally; no code path sets it to nil, the `getD` default is
unreachable. -/
def GetPlays (teamSlug : String) (fromT toT : GoTime) (take skip : Int)
    (opts : List GetPlaysOption)
    (resp : Except Err (List PlayReport × Int)) : Res (List PlayReport × Int) :=
  let filters := opts.foldl (fun acc f => f acc) defaultPlayFilter
  let ordering := filters.Ordering.getD ⟨"completion_percent", "Desc"⟩
  let call := queryCall
    [("teamSlug", GVal.s teamSlug),
     ("from", GVal.time fromT),
     ("to", GVal.time toT),
     ("trackIds", GVal.sl filters.TrackIDs),
     ("trackInviteIds", GVal.sl filters.TrackInviteIDs),
     ("landingPageIds", GVal.sl filters.LandingPageIDs),
     ("tags", GVal.sl filters.Tags),
     ("userIds", GVal.sl filters.UserIDs),
     ("take", GVal.i take),
     ("skip", GVal.i skip),
     ("playType", GVal.s filters.PlayType),
     ("orderBy", GVal.s ordering.OrderBy),
     ("orderDirection", GVal.s ordering.Direction)]
  match resp with
  | .error e => { val := ([], 0), err := some ("GraphQL query failed: " ++ e), calls := [call] }
  | .ok (items, total) => { val := (items, total), calls := [call] }

/-! ## Sandboxes (src/instruqt/sandbox.go) -/

/-- `Sandbox` (sandbox.go): the scalar fields; the track/invite/user/pool
back-references are never read by an embedded method. -/
structure Sandbox where
  Id : String := ""
  Last_Activity_At : GoTime := 0
  State : String := ""
  deriving Repr, DecidableEq

/-- `SetSandboxVariable` (sandbox.go): returns nil immediately when the
sandbox id, the key or the value is empty; otherwise issues one mutation. -/
def SetSandboxVariable (playID hostname key value : String)
    (resp : Except Err Unit) : Option Err × List GqlCall :=
  if playID = "" ∨ key = "" ∨ value = "" then (none, [])
  else
    let call := mutateCall
      [("hostname", GVal.s hostname), ("sandboxID", GVal.s playID),
       ("key", GVal.s key), ("value", GVal.s value)]
    match resp with
    | .error e => (some e, [call])
    | .ok _ => (none, [call])

/-- `GetSandboxes` (sandbox.go): applies the options to
`options{playType: PlayTypeAll}` and issues one query.  `track_ids`,
`invite_ids` and `pool_ids` are forwarded as lists; of `userIDs` only the
first element is forwarded, as the scalar `user_name_or_id` (empty string
when no user id was supplied); `landingPageIDs` and `tags` are not
forwarded at all.  (The source reads `filters.states`; the only options
revision in the repository names that field `state`, carried as a scalar
here.) -/
def GetSandboxes (teamSlug : String) (opts : List OptionFn)
    (resp : Except Err (List Sandbox)) : Res (List Sandbox) :=
  let filters := applyOptions opts { playType := "ALL" }
  let userNameOrId := match filters.userIDs with
    | [] => ""
    | u :: _ => u
  let call := queryCall
    [("teamSlug", GVal.s teamSlug),
     ("track_ids", GVal.sl filters.trackIDs),
     ("invite_ids", GVal.sl filters.trackInviteIDs),
     ("pool_ids", GVal.sl filters.poolIDs),
     ("user_name_or_id", GVal.s userNameOrId),
     ("state", GVal.s filters.state)]
  match resp with
  | .error e => { val := [], err := some e, calls := [call] }
  | .ok sbs => { val := sbs, calls := [call] }

/-! ## Webhook handler (src/instruqt/webhook.go)

External collaborators are oracle arguments:
  - `newWebhookOk` — whether `svix.NewWebhook(secret)` succeeds for the
    handler's secret;
  - `verify` — `wh.Verify(payload, r.Header)` as a success predicate over
    the raw body bytes and the request headers;
  - `decode` — `json.Unmarshal` of the raw body into the event envelope;
  - `callback` — the caller-supplied `WebhookHandler`; its return is the
    error it reports (`none` = nil); what it writes on success is its own
    business and outside the trace.
-/

/-- `WebhookEvent` (webhook.go): the flat event envelope. -/
structure WebhookEvent where
  type : String := ""
  trackId : String := ""
  trackSlug : String := ""
  participantId : String := ""
  userId : String := ""
  inviteId : String := ""
  claimId : String := ""
  timestamp : GoTime := 0
  reason : String := ""
  duration : Int := 0
  customParameters : List (String × String) := []
  challengeId : String := ""
  challengeIndex : Int := 0
  totalChallenges : Int := 0
  content : String := ""
  reviewId : String := ""
  score : Int := 0
  deriving Repr, DecidableEq

/-- An inbound HTTP request as the handler observes it: the method, the
result of `io.ReadAll(r.Body)` (bytes or a read error), and the headers. -/
structure HttpRequest where
  method : String
  bodyRead : Except Unit (List Nat)
  headers : List (String × String)

/-- What one run of the handler did: the status/body written through
`http.Error` (`none` = the response was left to the callback), whether
`json.Unmarshal` ran, and whether the callback was invoked. -/
structure HandlerTrace where
  status : Option Nat := none
  body : Option String := none
  decodeAttempted : Bool := false
  callbackInvoked : Bool := false
  deriving Repr, DecidableEq

/-- `HandleWebhook` (webhook.go): the handler's exits, in source order —
405 on a non-POST method; 500 when the svix validator cannot be built;
400 when the body is unreadable; 401 when signature verification fails;
400 when the JSON is malformed or the event type is empty; 500 with the
callback's error text when the callback fails; nothing written otherwise. -/
def HandleWebhook (newWebhookOk : Bool)
    (verify : List Nat → List (String × String) → Bool)
    (decode : List Nat → Except Unit WebhookEvent)
    (callback : WebhookEvent → Option String)
    (req : HttpRequest) : HandlerTrace :=
  if req.method ≠ "POST" then
    { status := some 405, body := some "Invalid request method" }
  else if newWebhookOk = false then
    { status := some 500, body := some "Failed to create webhook validator" }
  else
    match req.bodyRead with
    | .error _ => { status := some 400, body := some "No payload" }
    | .ok payload =>
      if verify payload req.headers = false then
        { status := some 401, body := some "Invalid webhook signature" }
      else
        match decode payload with
        | .error _ =>
          { status := some 400, body := some "Failed to decode webhook payload",
            decodeAttempted := true }
        | .ok webhook =>
          if webhook.type = "" then
            { status := some 400, body := some "Invalid webhook payload",
              decodeAttempted := true }
          else
            match callback webhook with
            | some e =>
              { status := some 500, body := some e,
                decodeAttempted := true, callbackInvoked := true }
            | none =>
              { decodeAttempted := true, callbackInvoked := true }

/-- Response dispatch as the (amended) specification words it, written
independently of `HandleWebhook`: which status and body the handler must
produce for a request, `none` meaning the response is the callback's.
This is the spec-side definition for the refinement theorem of claim C2. -/
def webhookResponseSpec (newWebhookOk : Bool)
    (verify : List Nat → List (String × String) → Bool)
    (decode : List Nat → Except Unit WebhookEvent)
    (callback : WebhookEvent → Option String)
    (req : HttpRequest) : Option (Nat × String) :=
  if req.method ≠ "POST" then some (405, "Invalid request method")
  else if ¬ newWebhookOk then some (500, "Failed to create webhook validator")
  else
    match req.bodyRead with
    | .error _ => some (400, "No payload")
    | .ok payload =>
      if ¬ verify payload req.headers then some (401, "Invalid webhook signature")
      else
        match decode payload with
        | .error _ => some (400, "Failed to decode webhook payload")
        | .ok ev =>
          if ev.type = "" then some (400, "Invalid webhook payload")
          else
            match callback ev with
            | some e => some (500, e)
            | none => none

/-! # Theorems -/

/-- The scan loop returns the first allowlisted challenge, i.e. `find?`
with the zero value as default. -/
theorem firstPlayable_eq_find (l : List Challenge) :
    firstPlayable l =
      (l.find? fun ch => unlockedStatuses.contains ch.Status).getD {} := by
  induction l with
  | nil => rfl
  | cons ch rest ih =>
    rw [firstPlayable, List.find?]
    cases h : unlockedStatuses.contains ch.Status with
    | true => simp [h]
    | false => simp [h, ih]

/-- C1: whenever the user-track fetch of `GetTrackUnlockedChallenge`
succeeds, the method returns — with nil error and no further executor
call — the first challenge of the fetched track whose `Status` is one of
`unlocked`, `creating`, `created`, `started`, and the zero-value
`Challenge` when no challenge of the list has one of those statuses. -/
theorem getTrackUnlockedChallenge_first_allowlisted
    (userId trackId teamSlug : String)
    (primary : Except Err SandboxTrack)
    (challengesResp : Except Err (List Challenge))
    (userChResp : String → Except Err Challenge)
    (reviewsResp : Except Err (Int × List Review))
    (h : (GetUserTrackById userId trackId teamSlug [WithChallenges]
            primary challengesResp userChResp reviewsResp).err = none) :
    GetTrackUnlockedChallenge userId trackId teamSlug
        primary challengesResp userChResp reviewsResp =
      { val := ((GetUserTrackById userId trackId teamSlug [WithChallenges]
                   primary challengesResp userChResp reviewsResp).val.Challenges.find?
                 fun ch => unlockedStatuses.contains ch.Status).getD {},
        err := none,
        calls := (GetUserTrackById userId trackId teamSlug [WithChallenges]
                   primary challengesResp userChResp reviewsResp).calls } := by
  rcases hr : GetUserTrackById userId trackId teamSlug [WithChallenges]
      primary challengesResp userChResp reviewsResp with ⟨v, er, cs⟩
  rw [hr] at h
  unfold GetTrackUnlockedChallenge
  rw [hr]
  cases er with
  | none =>
    show ({ val := firstPlayable v.Challenges, err := none, calls := cs } : Res Challenge) = _
    rw [firstPlayable_eq_find]
  | some e => exact absurd h (by simp [Res.err])

/-- C1 witness: the spec's own example — challenges
`[locked, completed, unlocked]` yield the third entry with nil error. -/
theorem getTrackUnlockedChallenge_first_allowlisted_witness :
    (GetUserTrackById "u" "t" "team" [WithChallenges]
        (.ok { Id := "t",
               Challenges := [] })
        (.ok [{ Id := "c1", Status := "locked" },
              { Id := "c2", Status := "completed" },
              { Id := "c3", Status := "unlocked" }])
        (fun i => .ok { Id := i, Status :=
          if i = "c1" then "locked" else if i = "c2" then "completed" else "unlocked" })
        (.ok (0, []))).err = none ∧
    (GetTrackUnlockedChallenge "u" "t" "team"
        (.ok { Id := "t", Challenges := [] })
        (.ok [{ Id := "c1", Status := "locked" },
              { Id := "c2", Status := "completed" },
              { Id := "c3", Status := "unlocked" }])
        (fun i => .ok { Id := i, Status :=
          if i = "c1" then "locked" else if i = "c2" then "completed" else "unlocked" })
        (.ok (0, []))).val.Id = "c3" := by
  refine ⟨by decide, ?_⟩
  rw [getTrackUnlockedChallenge_first_allowlisted _ _ _ _ _ _ _ (by decide)]
  decide

/-- C2 counterexample: a POST request handled with a secret for which the
svix validator cannot be constructed is answered 500 with body
"Failed to create webhook validator" although the callback never ran and
returned no error — refuting "500 with the callback's error text as body
when (and only when) the callback returns an error" and the claim's
four-status enumeration. -/
theorem handleWebhook_validator_500_not_from_callback :
    HandleWebhook false (fun _ _ => true) (fun _ => .ok { type := "test_event" })
        (fun _ => none) { method := "POST", bodyRead := .ok [1, 2], headers := [] } =
      { status := some 500, body := some "Failed to create webhook validator",
        decodeAttempted := false, callbackInvoked := false } := by
  rfl

/-- C2 (amended): for every request the handler writes exactly the
status/body pair that the spec-side dispatch `webhookResponseSpec`
prescribes — 405 for a non-POST method, 500 "Failed to create webhook
validator" when the validator cannot be built, 400 for an unreadable
body, 401 for a failed signature, 400 for malformed JSON or an empty
event type, 500 with the callback's error text when the callback errors —
and writes nothing (leaving the response to the callback) exactly when
the callback ran and returned nil. -/
theorem handleWebhook_matches_response_spec
    (newWebhookOk : Bool)
    (verify : List Nat → List (String × String) → Bool)
    (decode : List Nat → Except Unit WebhookEvent)
    (callback : WebhookEvent → Option String)
    (req : HttpRequest) :
    (match webhookResponseSpec newWebhookOk verify decode callback req with
     | some (st, b) =>
         (HandleWebhook newWebhookOk verify decode callback req).status = some st ∧
         (HandleWebhook newWebhookOk verify decode callback req).body = some b
     | none =>
         (HandleWebhook newWebhookOk verify decode callback req).status = none ∧
         (HandleWebhook newWebhookOk verify decode callback req).body = none ∧
         (HandleWebhook newWebhookOk verify decode callback req).callbackInvoked = true) := by
  unfold HandleWebhook webhookResponseSpec
  by_cases hm : req.method = "POST" <;> simp only [hm, if_true, if_false, ite_not]
  · cases newWebhookOk with
    | false => simp
    | true =>
      simp only [Bool.true_eq_false, if_false, not_false_iff, if_true, ite_false]
      cases hb : req.bodyRead with
      | error u => simp
      | ok payload =>
        cases hv : verify payload req.headers with
        | false => simp [hv]
        | true =>
          simp only [hv, Bool.true_eq_false, if_false, not_true, ite_false]
          cases hd : decode payload with
          | error u => simp [hd]
          | ok ev =>
            simp only [hd]
            by_cases ht : ev.type = "" <;> simp only [ht, if_true, if_false, ite_not]
            · simp
            · cases hc : callback ev with
              | none => simp [hc, ht]
              | some e => simp [hc, ht]
  · simp [hm]

/-- C3: signature verification happens strictly before JSON decoding and
gates the callback — on every execution, over every choice of the
external verification/decoding primitives and every request whose body
read yields `payload`, if the handler attempted to decode the body, or if
it invoked the caller-supplied callback, then `Verify` had succeeded on
exactly the raw body bytes and the request headers. -/
theorem handleWebhook_verify_gates_decode_and_callback
    (newWebhookOk : Bool)
    (verify : List Nat → List (String × String) → Bool)
    (decode : List Nat → Except Unit WebhookEvent)
    (callback : WebhookEvent → Option String)
    (req : HttpRequest) (payload : List Nat)
    (hb : req.bodyRead = .ok payload) :
    ((HandleWebhook newWebhookOk verify decode callback req).decodeAttempted = true →
       verify payload req.headers = true) ∧
    ((HandleWebhook newWebhookOk verify decode callback req).callbackInvoked = true →
       verify payload req.headers = true) := by
  unfold HandleWebhook
  by_cases hm : req.method = "POST" <;> simp only [hm, hb, if_true, if_false, ite_not]
  · cases newWebhookOk with
    | false => simp
    | true =>
      simp only [Bool.true_eq_false, if_false, ite_false]
      cases hv : verify payload req.headers with
      | false => simp [hv]
      | true =>
        simp only [hv, Bool.true_eq_false, if_false, ite_false]
        cases hd : decode payload with
        | error u => simp [hd]
        | ok ev =>
          simp only [hd]
          by_cases ht : ev.type = "" <;> simp only [ht, if_true, if_false]
          · simp
          · cases hc : callback ev with
            | none => simp [hc, ht]
            | some e => simp [hc, ht]
  · simp [hm]

/-- C3 witness: a fully valid POST request on which the callback does run;
the theorem instance yields that verification succeeded on the raw bytes. -/
theorem handleWebhook_verify_gates_decode_and_callback_witness :
    (({ method := "POST", bodyRead := .ok [7], headers := [("h", "v")] } :
        HttpRequest).bodyRead = .ok [7]) ∧
    ((fun (p : List Nat) (_hs : List (String × String)) => decide (p = [7]))
        [7] [("h", "v")] = true) := by
  refine ⟨rfl, ?_⟩
  have h := handleWebhook_verify_gates_decode_and_callback true
    (fun p _hs => decide (p = [7])) (fun _ => .ok { type := "test_event" }) (fun _ => none)
    { method := "POST", bodyRead := .ok [7], headers := [("h", "v")] } [7] rfl
  exact h.2 (by decide)

/-- C4 counterexample: `GetReview("")` does issue the GraphQL query (its
call trace is non-empty), and with a failing executor it returns a
non-nil error — the empty-identifier short-circuit does not exist for
`GetReview`. -/
theorem getReview_empty_id_still_queries :
    (GetReview "" [] (.ok {}) (.ok {})).calls = [queryCall [("id", GVal.idv "")]] ∧
    (GetReview "" [] (.ok {}) (.ok {})).calls ≠ [] ∧
    (GetReview "" [] (.ok {}) (.error "network down")).err =
      some "GraphQL query failed: network down" := by
  refine ⟨rfl, by decide, rfl⟩

/-- C4 (amended): the empty-identifier short-circuit — zero-value result,
nil error, no executor call — holds for the track-id methods
(`GetTrackById`, `GetUserTrackById`, `GetChallenges`), the challenge-id
methods (`GetChallenge`, `GetUserChallenge`) and the invite-id method
(`GetInvite`), for every option list and every executor behaviour; it
does not hold for `GetReview` (see the counterexample). -/
theorem empty_identifier_short_circuits
    (userId teamSlug : String) (opts : List OptionFn)
    (pT : Except Err Track) (pST : Except Err SandboxTrack)
    (chR : Except Err (List Challenge))
    (uResp : String → Except Err Challenge)
    (rvR : Except Err (Int × List Review))
    (cR : Except Err Challenge) (iR : Except Err TrackInvite) :
    GetTrackById "" opts pT chR rvR = { val := {}, err := none, calls := [] } ∧
    GetUserTrackById userId "" teamSlug opts pST chR uResp rvR =
      { val := {}, err := none, calls := [] } ∧
    GetChallenges teamSlug "" chR = { val := [], err := none, calls := [] } ∧
    GetChallenge "" cR = { val := {}, err := none, calls := [] } ∧
    GetUserChallenge userId "" cR = { val := {}, err := none, calls := [] } ∧
    GetInvite "" iR = { val := {}, err := none, calls := [] } := by
  refine ⟨?_, ?_, ?_, ?_, ?_, ?_⟩ <;> rfl

/-- C4 witness: the short-circuit evaluated at a concrete failing executor
(every sub-call would error) still yields zero values, nil errors and no
calls. -/
theorem empty_identifier_short_circuits_witness :
    GetTrackById "" [WithChallenges] (.error "e1") (.error "e2") (.error "e3") =
      { val := {}, err := none, calls := [] } ∧
    GetReview "" [] (.ok {}) (.ok {}) ≠
      ({ val := none, err := none, calls := [] } : Res (Option Review)) := by
  have h := empty_identifier_short_circuits "u" "team" [WithChallenges]
    (.error "e1") (.error "e1") (.error "e2") (fun _ => .error "e4") (.error "e3")
    (.error "e5") (.error "e6")
  exact ⟨h.1, by decide⟩

/-- C5: for `GetTrackById` and `GetUserTrackById` with enrichment options,
every failing follow-up call — the challenge fetch, the review fetch, or
the per-challenge user-status loop — makes the method return the
zero-value result together with a non-nil error: the already-fetched
primary track (`tr` / `st`) is discarded. -/
theorem enrichment_failure_discards_partial
    (userId trackId teamSlug : String) (opts : List OptionFn)
    (tr : Track) (st : SandboxTrack) (e : Err) (chs chs2 : List Challenge)
    (uResp : String → Except Err Challenge)
    (rvR : Except Err (Int × List Review))
    (hne : trackId ≠ "") :
    ((applyOptions opts {}).includeChallenges = true →
       GetTrackById trackId opts (.ok tr) (.error e) rvR =
         { val := {}, err := some ("failed to fetch challenges for track: " ++ e),
           calls := [queryCall [("trackId", GVal.s trackId)]] }) ∧
    ((applyOptions opts {}).includeReviews = true →
       GetTrackById trackId opts (.ok tr) (.ok chs) (.error e) =
         { val := {}, err := some ("failed to fetch reviews for track: " ++ e),
           calls := [queryCall [("trackId", GVal.s trackId)]] }) ∧
    ((applyOptions opts {}).includeChallenges = true →
       GetUserTrackById userId trackId teamSlug opts (.ok st) (.error e) uResp rvR =
         { val := {}, err := some ("failed to fetch challenges for track: " ++ e),
           calls := [queryCall [("trackId", GVal.s trackId), ("userId", GVal.s userId),
                     ("organizationSlug", GVal.s teamSlug)]] }) ∧
    ((applyOptions opts {}).includeChallenges = true →
     userStatusLoop userId uResp chs = .error e →
       GetUserTrackById userId trackId teamSlug opts (.ok st) (.ok chs) uResp rvR =
         { val := {}, err := some e,
           calls := [queryCall [("trackId", GVal.s trackId), ("userId", GVal.s userId),
                     ("organizationSlug", GVal.s teamSlug)]] }) ∧
    ((applyOptions opts {}).includeReviews = true →
     (applyOptions opts {}).includeChallenges = false →
       GetUserTrackById userId trackId teamSlug opts (.ok st) (.ok chs) uResp (.error e) =
         { val := {}, err := some ("failed to fetch reviews for track: " ++ e),
           calls := [queryCall [("trackId", GVal.s trackId), ("userId", GVal.s userId),
                     ("organizationSlug", GVal.s teamSlug)]] }) ∧
    ((applyOptions opts {}).includeReviews = true →
     (applyOptions opts {}).includeChallenges = true →
     userStatusLoop userId uResp chs = .ok chs2 →
       GetUserTrackById userId trackId teamSlug opts (.ok st) (.ok chs) uResp (.error e) =
         { val := {}, err := some ("failed to fetch reviews for track: " ++ e),
           calls := [queryCall [("trackId", GVal.s trackId), ("userId", GVal.s userId),
                     ("organizationSlug", GVal.s teamSlug)]] }) := by
  refine ⟨?_, ?_, ?_, ?_, ?_, ?_⟩
  · intro hch
    simp [GetTrackById, hne, hch, enrichChallenges]
  · intro hrv
    by_cases hch : (applyOptions opts {}).includeChallenges <;>
      simp [GetTrackById, hne, hch, hrv, enrichChallenges, enrichReviewsT]
  · intro hch
    simp [GetUserTrackById, hne, hch]
  · intro hch hloop
    simp [GetUserTrackById, hne, hch, hloop]
  · intro hrv hch
    simp [GetUserTrackById, hne, hch, hrv, enrichReviewsST]
  · intro hrv hch hloop
    simp [GetUserTrackById, hne, hch, hrv, hloop, enrichReviewsST]

/-- C5 witness: concrete enrichment failures — a failing challenge fetch
under `WithChallenges` and a failing review fetch under `WithReviews` —
discard a non-zero primary track. -/
theorem enrichment_failure_discards_partial_witness :
    GetTrackById "t1" [WithChallenges] (.ok { Id := "t1", Title := "T" })
        (.error "boom") (.ok (0, [])) =
      { val := {}, err := some "failed to fetch challenges for track: boom",
        calls := [queryCall [("trackId", GVal.s "t1")]] } ∧
    GetUserTrackById "u" "t1" "team" [WithReviews] (.ok { Id := "t1" })
        (.ok []) (fun _ => .ok {}) (.error "boom") =
      { val := {}, err := some "failed to fetch reviews for track: boom",
        calls := [queryCall [("trackId", GVal.s "t1"), ("userId", GVal.s "u"),
                  ("organizationSlug", GVal.s "team")]] } := by
  have h := enrichment_failure_discards_partial "u" "t1" "team" [WithChallenges]
    { Id := "t1", Title := "T" } { Id := "t1" } "boom" [] [] (fun _ => .ok {})
    (.ok (0, [])) (by decide)
  have h2 := enrichment_failure_discards_partial "u" "t1" "team" [WithReviews]
    { Id := "t1", Title := "T" } { Id := "t1" } "boom" [] [] (fun _ => .ok {})
    (.ok (0, [])) (by decide)
  exact ⟨h.1 (by decide), (h2.2.2.2.2.1) (by decide) (by decide)⟩

/-- C6 counterexample: `GetSandboxes` with `WithUserIDs("u1","u2")` does
not forward the user-id list as a GraphQL list variable — no variable of
its single call equals the list `["u1","u2"]`; instead only the first
element is forwarded, as the scalar `user_name_or_id`. -/
theorem getSandboxes_userIDs_collapsed_to_scalar :
    (GetSandboxes "team" [WithUserIDs ["u1", "u2"]] (.ok [])).calls =
      [queryCall
        [("teamSlug", GVal.s "team"), ("track_ids", GVal.sl []),
         ("invite_ids", GVal.sl []), ("pool_ids", GVal.sl []),
         ("user_name_or_id", GVal.s "u1"), ("state", GVal.s "")]] ∧
    (∀ c ∈ (GetSandboxes "team" [WithUserIDs ["u1", "u2"]] (.ok [])).calls,
      ∀ kv ∈ c.vars, kv.2 ≠ GVal.sl ["u1", "u2"]) := by
  refine ⟨rfl, by decide⟩

/-- C6 (amended): `GetPlays` forwards each of the five set-membership
filters verbatim, in order, as a GraphQL list variable of its single
executor call — exactly the accumulator contents after applying the
options to the all-empty default, so `WithTrackIDs("t1","t2")` forwards
exactly `["t1","t2"]` and no option forwards an empty list, never an
absent value.  `GetSandboxes` forwards `track_ids`, `invite_ids` and
`pool_ids` the same way, but of `userIDs` forwards only the first element
(empty string when none), as the scalar `user_name_or_id`, and forwards
`landingPageIDs` and `tags` not at all. -/
theorem filter_options_forwarding
    (teamSlug : String) (fromT toT : GoTime) (take skip : Int)
    (popts : List GetPlaysOption) (opts : List OptionFn)
    (presp : Except Err (List PlayReport × Int))
    (sresp : Except Err (List Sandbox))
    (tids uids : List String) :
    ((GetPlays teamSlug fromT toT take skip popts presp).calls.map
        (fun c => (c.vars.lookup "trackIds", c.vars.lookup "trackInviteIds",
                   c.vars.lookup "landingPageIds", c.vars.lookup "tags",
                   c.vars.lookup "userIds")) =
      [(some (GVal.sl (popts.foldl (fun acc f => f acc) defaultPlayFilter).TrackIDs),
        some (GVal.sl (popts.foldl (fun acc f => f acc) defaultPlayFilter).TrackInviteIDs),
        some (GVal.sl (popts.foldl (fun acc f => f acc) defaultPlayFilter).LandingPageIDs),
        some (GVal.sl (popts.foldl (fun acc f => f acc) defaultPlayFilter).Tags),
        some (GVal.sl (popts.foldl (fun acc f => f acc) defaultPlayFilter).UserIDs))]) ∧
    ((popts = [Plays.WithTrackIDs tids, Plays.WithUserIDs uids]) →
       (popts.foldl (fun acc f => f acc) defaultPlayFilter).TrackIDs = tids ∧
       (popts.foldl (fun acc f => f acc) defaultPlayFilter).UserIDs = uids ∧
       (popts.foldl (fun acc f => f acc) defaultPlayFilter).TrackInviteIDs = [] ∧
       (popts.foldl (fun acc f => f acc) defaultPlayFilter).LandingPageIDs = [] ∧
       (popts.foldl (fun acc f => f acc) defaultPlayFilter).Tags = []) ∧
    ((GetSandboxes teamSlug opts sresp).calls.map
        (fun c => (c.vars.lookup "track_ids", c.vars.lookup "invite_ids",
                   c.vars.lookup "pool_ids", c.vars.lookup "user_name_or_id",
                   c.vars.lookup "userIds")) =
      [(some (GVal.sl (applyOptions opts { playType := "ALL" }).trackIDs),
        some (GVal.sl (applyOptions opts { playType := "ALL" }).trackInviteIDs),
        some (GVal.sl (applyOptions opts { playType := "ALL" }).poolIDs),
        some (GVal.s (match (applyOptions opts { playType := "ALL" }).userIDs with
                      | [] => ""
                      | u :: _ => u)),
        none)]) := by
  refine ⟨?_, ?_, ?_⟩
  · cases presp <;> rfl
  · intro hp
    subst hp
    exact ⟨rfl, rfl, rfl, rfl, rfl⟩
  · cases sresp <;> rfl

/-- C6 witness: with `WithTrackIDs(["t1","t2"])` and
`WithUserIDs(["u1","u2"])`, `GetPlays` forwards exactly those lists, in
order; with no options it forwards empty lists for all five filters. -/
theorem filter_options_forwarding_witness :
    ((GetPlays "team" 0 1 10 0 [Plays.WithTrackIDs ["t1", "t2"], Plays.WithUserIDs ["u1", "u2"]]
        (.ok ([], 0))).calls.map
        (fun c => (c.vars.lookup "trackIds", c.vars.lookup "trackInviteIds",
                   c.vars.lookup "landingPageIds", c.vars.lookup "tags",
                   c.vars.lookup "userIds")) =
      [(some (GVal.sl ["t1", "t2"]), some (GVal.sl []), some (GVal.sl []),
        some (GVal.sl []), some (GVal.sl ["u1", "u2"]))]) ∧
    ((GetPlays "team" 0 1 10 0 [] (.ok ([], 0))).calls.map
        (fun c => (c.vars.lookup "trackIds", c.vars.lookup "trackInviteIds",
                   c.vars.lookup "landingPageIds", c.vars.lookup "tags",
                   c.vars.lookup "userIds")) =
      [(some (GVal.sl []), some (GVal.sl []), some (GVal.sl []),
        some (GVal.sl []), some (GVal.sl []))]) ∧
    (([Plays.WithTrackIDs ["t1", "t2"], Plays.WithUserIDs ["u1", "u2"]].foldl
        (fun acc f => f acc) defaultPlayFilter).TrackIDs = ["t1", "t2"]) := by
  have h := filter_options_forwarding "team" 0 1 10 0
    [Plays.WithTrackIDs ["t1", "t2"], Plays.WithUserIDs ["u1", "u2"]] []
    (.ok ([], 0)) (.ok []) ["t1", "t2"] ["u1", "u2"]
  have h2 := filter_options_forwarding "team" 0 1 10 0 [] []
    (.ok ([], 0)) (.ok []) [] []
  refine ⟨?_, ?_, ?_⟩
  · simpa [Plays.WithTrackIDs, Plays.WithUserIDs, defaultPlayFilter] using h.1
  · simpa [defaultPlayFilter] using h2.1
  · exact (h.2.1 rfl).1

/-- C7 counterexample: a user whose `Details.Email` is empty, whose
`Profile.Email` is non-empty and whose display name has no whitespace
token makes `GetUserInfo` panic (`nameParts[0]` on an empty slice)
instead of returning a `UserInfo` — the claim's Profile clause fails. -/
theorem getUserInfo_empty_display_name_panics :
    GetUserInfo (.ok { Details := {}, Profile := { Display_Name := "", Email := "p@example.com" } }) =
      .panicked := by
  rfl

/-- C7 (amended): when the fetched user's `Details.Email` is non-empty,
`GetUserInfo` returns Details' first name, last name and email with nil
error; when `Details.Email` is empty, `Profile.Email` is non-empty and
the display name contains at least one whitespace-separated token,
it returns that first token as first name, the remaining tokens joined
by single spaces as last name, and Profile's email, with nil error
(with no token at all the code panics instead — see the counterexample). -/
theorem getUserInfo_details_then_profile (user : User) (p : String) (rest : List String) :
    (user.Details.Email ≠ "" →
       GetUserInfo (.ok user) =
         .ok (⟨user.Details.FirstName, user.Details.LastName, user.Details.Email⟩, none)) ∧
    (user.Details.Email = "" → user.Profile.Email ≠ "" →
     goFields user.Profile.Display_Name = p :: rest →
       GetUserInfo (.ok user) =
         .ok (⟨p, String.intercalate " " rest, user.Profile.Email⟩, none)) := by
  constructor
  · intro hd
    simp [GetUserInfo, hd]
  · intro hd hp hf
    simp [GetUserInfo, hd, hp, hf]

/-- C7 witness: the Details path on a populated Details record, and the
Profile path splitting the display name "Grace Brewster Hopper" into
first name "Grace" and last name "Brewster Hopper". -/
theorem getUserInfo_details_then_profile_witness :
    GetUserInfo (.ok { Details := { FirstName := "Ada", LastName := "Lovelace",
                                    Email := "ada@example.com" },
                       Profile := { Display_Name := "ignored", Email := "x@example.com" } }) =
      .ok (⟨"Ada", "Lovelace", "ada@example.com"⟩, none) ∧
    GetUserInfo (.ok { Details := {},
                       Profile := { Display_Name := "Grace Brewster Hopper",
                                    Email := "grace@example.com" } }) =
      .ok (⟨"Grace", "Brewster Hopper", "grace@example.com"⟩, none) := by
  have h1 := (getUserInfo_details_then_profile
    { Details := { FirstName := "Ada", LastName := "Lovelace", Email := "ada@example.com" },
      Profile := { Display_Name := "ignored", Email := "x@example.com" } }
    "Grace" ["Brewster", "Hopper"]).1 (by decide)
  have h2 := (getUserInfo_details_then_profile
    { Details := {},
      Profile := { Display_Name := "Grace Brewster Hopper", Email := "grace@example.com" } }
    "Grace" ["Brewster", "Hopper"]).2 rfl (by decide) (by decide)
  exact ⟨h1, by simpa using h2⟩

/-- C8: `GetTracks(WithChallenges())` on a successful one-track response
whose follow-up challenge fetch succeeds with a non-empty list returns
the track with its `Challenges` field still empty — the loop assigns the
fetched challenges to the Go range-variable copy, which is discarded —
while the claim (and the loop's evident intent) is that the field be
populated with the fetched list. -/
theorem getTracks_enrichment_assigned_to_discarded_copy :
    GetTracks "team" [WithChallenges] (.ok [{ Id := "t1" }])
        (fun _ => .ok [{ Id := "c1", Status := "unlocked" }]) (fun _ => .ok (0, [])) =
      { val := [{ Id := "t1" }], err := none,
        calls := [queryCall [("organizationSlug", GVal.s "team")]] } ∧
    ((GetTracks "team" [WithChallenges] (.ok [{ Id := "t1" }])
        (fun _ => .ok [{ Id := "c1", Status := "unlocked" }])
        (fun _ => .ok (0, []))).val.map Track.Challenges = [[]]) := by
  exact ⟨rfl, rfl⟩

/-- C9: `WithContext` on a client whose `DebugLogger` is non-nil returns a
copy whose `Context` is replaced and whose `GraphQLClient`, `InfoLogger`
and `TeamSlug` are preserved, but whose `DebugLogger` is nil — the field
is missing from the copy literal, contradicting the claim (and the
method's own "copy of the Client" contract).  The embedding is a pure
function of the receiver, so the original client is unchanged. -/
theorem withContext_drops_debugLogger :
    ({ GraphQLClient := 1, InfoLogger := some 2, DebugLogger := some 3,
       TeamSlug := "team", Context := 4 } : Client Nat Nat Nat).WithContext 9 =
      { GraphQLClient := 1, InfoLogger := some 2, DebugLogger := none,
        TeamSlug := "team", Context := 9 } ∧
    (({ GraphQLClient := 1, InfoLogger := some 2, DebugLogger := some 3,
        TeamSlug := "team", Context := 4 } : Client Nat Nat Nat).WithContext 9).DebugLogger ≠
      ({ GraphQLClient := 1, InfoLogger := some 2, DebugLogger := some 3,
         TeamSlug := "team", Context := 4 } : Client Nat Nat Nat).DebugLogger := by
  exact ⟨rfl, by decide⟩

/-- C10: `SetSandboxVariable` with an empty sandbox id, key or value
returns nil without invoking the executor — in particular setting a
variable to the empty string is silently a no-op. -/
theorem setSandboxVariable_empty_is_noop
    (playID hostname key value : String) (resp : Except Err Unit)
    (h : playID = "" ∨ key = "" ∨ value = "") :
    SetSandboxVariable playID hostname key value resp = (none, []) := by
  simp [SetSandboxVariable, h]

/-- C10 witness: setting a variable to the empty string issues no
mutation and reports no error, even with a failing executor. -/
theorem setSandboxVariable_empty_is_noop_witness :
    SetSandboxVariable "sb-1" "server" "KEY" "" (.error "down") = (none, []) := by
  exact setSandboxVariable_empty_is_noop "sb-1" "server" "KEY" "" (.error "down")
    (Or.inr (Or.inr rfl))
